import Mathlib

/-!
Shallow embedding of `go/base/context.go` from gh-ost: the `MigrationContext`
shared-state hub and the operations the specification describes. Go `int64`
values appear as `Int` (the embedded functions only compare and assign, never
compute, so no wraparound can occur); `time.Time` instants appear as `Nat`
with `0` standing for Go's zero time (`IsZero`); a Go method that mutates its
receiver and returns `error` becomes a function `... → Option String ×
MigrationContext` whose first component is the returned error (`none` = `nil`);
a void mutating method becomes `... → MigrationContext`.
-/

namespace GhOst

/-- Projection of `mysql.ConnectionConfig` (external package) to the fields
`context.go` touches: `User` and `Password`. -/
structure ConnectionConfig where
  User : String
  Password : String
deriving Repr, DecidableEq

/-- The `Client` subsection of `ContextConfig` (context.go lines 139-142). -/
structure ContextConfigClient where
  User : String
  Password : String
deriving Repr, DecidableEq

/-- The `Osc` subsection of `ContextConfig` (context.go lines 143-148). -/
structure ContextConfigOsc where
  Chunk_Size : Int
  Max_Lag_Millis : Int
  Replication_Lag_Query : String
  Max_Load : String
deriving Repr, DecidableEq

/-- `ContextConfig` (context.go lines 138-149). -/
structure ContextConfig where
  Client : ContextConfigClient
  Osc : ContextConfigOsc
deriving Repr, DecidableEq

/-- `LoadMap` (declared in `go/base/load_map.go`, not under `src/`): per spec
§4.1, "an ordered mapping of named load metrics to numeric thresholds".
Embedded as an ordered association list; thresholds are exact rationals
standing for the numeric (floating-point) threshold values. -/
def LoadMap : Type := List (String × ℚ)

instance : Repr LoadMap := inferInstanceAs (Repr (List (String × ℚ)))
instance : DecidableEq LoadMap := inferInstanceAs (DecidableEq (List (String × ℚ)))

/-- `NewLoadMap` returns an empty load map. -/
def NewLoadMap : LoadMap := []

/-- Projection of `MigrationContext` (context.go lines 45-136) to the fields
read or written by the embedded operations. Mutexes are dropped: the embedding
is sequential, and each embedded operation corresponds to one atomic
lock-protected (or lock-free) step of the original. -/
structure MigrationContext where
  DatabaseName : String
  OriginalTableName : String
  MigrateTableName : String
  Migrate : Bool
  TestOnReplica : Bool
  MigrateOnReplica : Bool
  config : ContextConfig
  ConfigFile : String
  CliUser : String
  CliPassword : String
  defaultNumRetries : Int
  ChunkSize : Int
  maxLoad : LoadMap
  CutOverLockTimeoutSeconds : Int
  InspectorConnectionConfig : ConnectionConfig
  RowCopyStartTime : Nat
  RowCopyEndTime : Nat
deriving Repr, DecidableEq

/-- `newMigrationContext` (context.go lines 157-173): defaults for the fields
kept by the embedding (`defaultNumRetries: 60`, `ChunkSize: 1000`,
`CutOverLockTimeoutSeconds: 3`, empty load map, zero-valued everything else). -/
def newMigrationContext : MigrationContext where
  DatabaseName := ""
  OriginalTableName := ""
  MigrateTableName := ""
  Migrate := false
  TestOnReplica := false
  MigrateOnReplica := false
  config := { Client := { User := "", Password := "" },
              Osc := { Chunk_Size := 0, Max_Lag_Millis := 0,
                       Replication_Lag_Query := "", Max_Load := "" } }
  ConfigFile := ""
  CliUser := ""
  CliPassword := ""
  defaultNumRetries := 60
  ChunkSize := 1000
  maxLoad := NewLoadMap
  CutOverLockTimeoutSeconds := 3
  InspectorConnectionConfig := { User := "", Password := "" }
  RowCopyStartTime := 0
  RowCopyEndTime := 0

/-- `GetGhostTableName` (context.go lines 181-187). -/
def GetGhostTableName (this : MigrationContext) : String :=
  if this.Migrate then
    this.MigrateTableName
  else
    "_" ++ this.OriginalTableName ++ "_gho"

/-- `GetOldTableName` (context.go lines 190-198). -/
def GetOldTableName (this : MigrationContext) : String :=
  if this.TestOnReplica then
    "_" ++ this.OriginalTableName ++ "_ght"
  else if this.MigrateOnReplica then
    "_" ++ this.OriginalTableName ++ "_ghr"
  else
    "_" ++ this.OriginalTableName ++ "_del"

/-- `SetCutOverLockTimeoutSeconds` (context.go lines 229-238): rejects values
below 1 or above 10 with an error (leaving the stored value untouched),
otherwise stores the value and returns `nil`. -/
def SetCutOverLockTimeoutSeconds (timeoutSeconds : Int)
    (this : MigrationContext) : Option String × MigrationContext :=
  if timeoutSeconds < 1 then
    (some ("Minimal timeout is 1sec. Timeout remains at " ++
      toString this.CutOverLockTimeoutSeconds), this)
  else if timeoutSeconds > 10 then
    (some ("Maximal timeout is 10sec. Timeout remains at " ++
      toString this.CutOverLockTimeoutSeconds), this)
  else
    (none, { this with CutOverLockTimeoutSeconds := timeoutSeconds })

/-- `SetDefaultNumRetries` (context.go lines 240-246): a void method — it
returns nothing. A non-positive argument is silently ignored. -/
def SetDefaultNumRetries (retries : Int) (this : MigrationContext) :
    MigrationContext :=
  if retries > 0 then { this with defaultNumRetries := retries } else this

/-- `MaxRetries` (context.go lines 248-253). -/
def MaxRetries (this : MigrationContext) : Int :=
  this.defaultNumRetries

/-- `SetChunkSize` (context.go lines 336-344): clamps into [100, 100000] and
stores; never fails (void method). -/
def SetChunkSize (chunkSize : Int) (this : MigrationContext) :
    MigrationContext :=
  let chunkSize := if chunkSize < 100 then 100 else chunkSize
  let chunkSize := if chunkSize > 100000 then 100000 else chunkSize
  { this with ChunkSize := chunkSize }

/-- `MarkRowCopyStartTime` (context.go lines 275-279): records `time.Now()`,
passed here as the parameter `now` (never the zero instant, i.e. positive). -/
def MarkRowCopyStartTime (now : Nat) (this : MigrationContext) :
    MigrationContext :=
  { this with RowCopyStartTime := now }

/-- `MarkRowCopyEndTime` (context.go lines 298-302). -/
def MarkRowCopyEndTime (now : Nat) (this : MigrationContext) :
    MigrationContext :=
  { this with RowCopyEndTime := now }

/-- `ElapsedRowCopyTime` (context.go lines 282-295): zero while the start time
is the zero instant; `now − start` while the end time is the zero instant;
`end − start` afterwards. Durations are `Int` (Go `time.Duration`). -/
def ElapsedRowCopyTime (now : Nat) (this : MigrationContext) : Int :=
  if this.RowCopyStartTime = 0 then
    0
  else if this.RowCopyEndTime = 0 then
    (now : Int) - (this.RowCopyStartTime : Int)
  else
    (this.RowCopyEndTime : Int) - (this.RowCopyStartTime : Int)

/-- `ApplyCredentials` (context.go lines 488-506): config-file credentials are
applied to the inspector connection first, then non-empty CLI credentials
override them; user and password are handled independently. Each `if` reads
only fields the method never writes, exactly as the Go code does. -/
def ApplyCredentials (this : MigrationContext) : MigrationContext :=
  let step1 :=
    if this.config.Client.User ≠ "" then
      { this with InspectorConnectionConfig :=
          { this.InspectorConnectionConfig with User := this.config.Client.User } }
    else this
  let step2 :=
    if this.CliUser ≠ "" then
      { step1 with InspectorConnectionConfig :=
          { step1.InspectorConnectionConfig with User := this.CliUser } }
    else step1
  let step3 :=
    if this.config.Client.Password ≠ "" then
      { step2 with InspectorConnectionConfig :=
          { step2.InspectorConnectionConfig with Password := this.config.Client.Password } }
    else step2
  let step4 :=
    if this.CliPassword ≠ "" then
      { step3 with InspectorConnectionConfig :=
          { step3.InspectorConnectionConfig with Password := this.CliPassword } }
    else step3
  step4

/-- Splitting a character list on a single-character separator: the model of
Go's `strings.Split` for the one-character separators (`,`, `=`) the load-map
format uses. Splitting the empty list yields one empty field, as
`strings.Split("", sep)` yields `[""]`. -/
def splitOnChar (sep : Char) : List Char → List (List Char)
  | [] => [[]]
  | c :: rest =>
    let r := splitOnChar sep rest
    if c = sep then [] :: r
    else
      match r with
      | h :: t => (c :: h) :: t
      | [] => [[c]]

/-- The numeric value of a decimal digit character, `none` for anything
else. -/
def digitToNat (c : Char) : Option Nat :=
  if '0' ≤ c ∧ c ≤ '9' then some (c.toNat - '0'.toNat) else none

/-- A non-empty all-digit character list read as a base-10 natural number,
`none` otherwise. -/
def charsToNat (l : List Char) : Option Nat :=
  if l.isEmpty then
    none
  else
    l.foldl (fun acc c =>
      match acc, digitToNat c with
      | some n, some d => some (n * 10 + d)
      | _, _ => none) (some 0)

/-- Modelled from the spec: numeric-threshold parsing inside `ParseLoadMap`
(`go/base/load_map.go`, not under `src/`). Spec §4.1 requires a
"floating-point threshold" and failure "when ... a value is non-numeric";
this reads an unsigned decimal literal (digits, optionally a point and more
digits) as an exact rational, and rejects everything else. -/
def parseDecimal (value : List Char) : Option ℚ :=
  match splitOnChar '.' value with
  | [a] => (charsToNat a).map (fun n => (n : ℚ))
  | [a, b] =>
    match charsToNat a, charsToNat b with
    | some na, some nb => some ((na : ℚ) + (nb : ℚ) / ((10 : ℚ) ^ b.length))
    | _, _ => none
  | _ => none

/-- Modelled from the spec: one `Name=Value` pair of a load list
(`ParseLoadMap` lives in `go/base/load_map.go`, which is not under `src/`).
Spec §4.1: "Fails with a `ParseError` when a pair is malformed or a value is
non-numeric." A pair is well-formed when it splits on `=` into a non-empty
metric name and a numeric value. -/
def parseLoadPair (pair : List Char) : Except String (String × ℚ) :=
  match splitOnChar '=' pair with
  | [name, value] =>
    if name = [] then
      .error ("Error parsing load condition: " ++ pair.asString)
    else
      match parseDecimal value with
      | some q => .ok (name.asString, q)
      | none => .error ("Error parsing load condition: " ++ pair.asString)
  | _ => .error ("Error parsing load condition: " ++ pair.asString)

/-- Modelled from the spec: `ParseLoadMap` (`go/base/load_map.go`, not under
`src/`). Spec §4.1: "parse a comma-separated list of `Name=Value` pairs into
an ordered mapping of metric name → floating-point threshold", failing when
any pair is malformed; spec §6 gives the concrete shape
`"Threads_running=100,Threads_connected=500"`. The empty list parses to the
empty map. -/
def ParseLoadMap (loadList : String) : Except String LoadMap :=
  if loadList = "" then
    .ok NewLoadMap
  else
    (splitOnChar ',' loadList.data).mapM parseLoadPair

/-- `ReadMaxLoad` (context.go lines 430-440): parses the given list and, only
when parsing succeeded, replaces the stored `maxLoad` map; on a parse error
the error is returned and the context is untouched. -/
def ReadMaxLoad (maxLoadList : String) (this : MigrationContext) :
    Option String × MigrationContext :=
  match ParseLoadMap maxLoadList with
  | .error e => (some e, this)
  | .ok loadMap => (none, { this with maxLoad := loadMap })

/-- Everything of `l` strictly before its last closing brace, or `none` when
`l` has no closing brace. Helper for the model of
`envVariableRegexp.FindStringSubmatch`. -/
def lastBraceSplit (l : List Char) : Option (List Char) :=
  match l.reverse.dropWhile (fun c => c ≠ '\x7d') with
  | [] => none
  | _ :: rest => some rest.reverse

/-- Model of `envVariableRegexp.FindStringSubmatch` (context.go line 40,
pattern `[$][\x7b](.*)[\x7d]`, used at lines 523-528): Go regexp semantics are
leftmost-first with a greedy `(.*)`, so the capture group of the first match
runs from just after the leftmost `$\x7b` that is followed by some `\x7d`, up
to the last `\x7d` of the string. Returns the capture group when a match
exists (`len(submatch) > 1` in Go), `none` otherwise. Modelled for
newline-free inputs (Go's `.` does not match a newline; credentials are
single-line). -/
def envVarSubmatchAux : List Char → Option (List Char)
  | '$' :: '\x7b' :: rest => lastBraceSplit rest
  | _ :: rest => envVarSubmatchAux rest
  | [] => none

/-- String-level wrapper of `envVarSubmatchAux`. -/
def envVarSubmatch (s : String) : Option String :=
  (envVarSubmatchAux s.data).map List.asString

/-- `ReadConfigFile` (context.go lines 509-531). The two external effects are
passed as parameters, modelled at their interface boundary: `env` is the
process environment (`os.Getenv`, which returns `""` for an unset variable)
and `readFileInto` is `gcfg.ReadFileInto` applied to the current config
(external package `gopkg.in/gcfg.v1`; on error the error is propagated and the
config is taken unchanged). When the file parses, a `$\x7bNAME\x7d` user or
password is replaced by `env NAME` — with no check that the result is
non-empty — and `nil` is returned. -/
def ReadConfigFile (env : String → String)
    (readFileInto : ContextConfig → Except String ContextConfig)
    (this : MigrationContext) : Option String × MigrationContext :=
  if this.ConfigFile = "" then
    (none, this)
  else
    match readFileInto this.config with
    | .error e => (some e, this)
    | .ok cfg =>
      let user :=
        match envVarSubmatch cfg.Client.User with
        | some name => env name
        | none => cfg.Client.User
      let password :=
        match envVarSubmatch cfg.Client.Password with
        | some name => env name
        | none => cfg.Client.Password
      (none, { this with config :=
        { cfg with Client := { User := user, Password := password } } })

/-- The claim's reading of `SetDefaultNumRetries`, following the spec's words
(§7: "out-of-bounds ... retry value — rejected, prior value retained, caller
must check the returned error"): a rejecting version that returns a
`ValidationError` for non-positive values. Stated only to be compared with the
source function `SetDefaultNumRetries`, whose Go signature returns nothing. -/
def setDefaultNumRetriesSpecModel (retries : Int) (this : MigrationContext) :
    Except String MigrationContext :=
  if retries > 0 then
    .ok { this with defaultNumRetries := retries }
  else
    .error "ValidationError: retries must be positive"

instance : DecidableEq (Except String LoadMap)
  | .error a, .error b => decidable_of_iff (a = b) (by simp)
  | .error _, .ok _ => isFalse (by simp)
  | .ok _, .error _ => isFalse (by simp)
  | .ok a, .ok b => decidable_of_iff (a = b) (by simp)

/-! ## Theorems -/

/-- C1: for every `v` with `1 ≤ v ≤ 10`, `SetCutOverLockTimeoutSeconds v`
returns success (`nil` error) and stores `v`; for every `v < 1` or `v > 10`
it returns an error and leaves the stored `CutOverLockTimeoutSeconds`
unchanged from before the call. -/
theorem setCutOverLockTimeoutSeconds_validates (v : Int)
    (ctx : MigrationContext) :
    (1 ≤ v → v ≤ 10 →
      SetCutOverLockTimeoutSeconds v ctx =
        (none, { ctx with CutOverLockTimeoutSeconds := v })) ∧
    (v < 1 ∨ 10 < v →
      (SetCutOverLockTimeoutSeconds v ctx).1.isSome = true ∧
      (SetCutOverLockTimeoutSeconds v ctx).2 = ctx) := by
  constructor
  · intro h1 h2
    have hv1 : ¬ (v < 1) := by omega
    have hv2 : ¬ (v > 10) := by omega
    simp [SetCutOverLockTimeoutSeconds, hv1, hv2]
  · intro h
    rcases h with h | h
    · simp [SetCutOverLockTimeoutSeconds, h]
    · have hv1 : ¬ (v < 1) := by omega
      have hv2 : v > 10 := h
      simp [SetCutOverLockTimeoutSeconds, hv1, hv2]

/-- C1 witness: the theorem applied at `v = 5` (in range) and `v = 0`
(out of range) on the default context. -/
theorem setCutOverLockTimeoutSeconds_validates_witness :
    SetCutOverLockTimeoutSeconds 5 newMigrationContext =
      (none, { newMigrationContext with CutOverLockTimeoutSeconds := 5 }) ∧
    (SetCutOverLockTimeoutSeconds 0 newMigrationContext).1.isSome = true ∧
    (SetCutOverLockTimeoutSeconds 0 newMigrationContext).2 =
      newMigrationContext :=
  ⟨(setCutOverLockTimeoutSeconds_validates 5 newMigrationContext).1
      (by norm_num) (by norm_num),
   (setCutOverLockTimeoutSeconds_validates 0 newMigrationContext).2
      (Or.inl (by norm_num))⟩

/-- C2: for every `v`, `SetChunkSize v` never fails (it is a total function
returning only the updated context) and stores exactly
`max 100 (min 100000 v)`. -/
theorem setChunkSize_clamps (v : Int) (ctx : MigrationContext) :
    SetChunkSize v ctx = { ctx with ChunkSize := max 100 (min 100000 v) } := by
  simp only [SetChunkSize]
  split_ifs with h1 h2 h3 <;>
    · congr 1
      omega

/-- C4: the derived names follow the fixed templates: `GetGhostTableName` is
`MigrateTableName` when `Migrate` is set and `_<table>_gho` otherwise;
`GetOldTableName` is `_<table>_ght` under `TestOnReplica`, `_<table>_ghr`
under `MigrateOnReplica` (alone), and `_<table>_del` when neither is set. -/
theorem derivedTableNames_templates (ctx : MigrationContext) :
    (ctx.Migrate = true → GetGhostTableName ctx = ctx.MigrateTableName) ∧
    (ctx.Migrate = false →
      GetGhostTableName ctx = "_" ++ ctx.OriginalTableName ++ "_gho") ∧
    (ctx.TestOnReplica = true →
      GetOldTableName ctx = "_" ++ ctx.OriginalTableName ++ "_ght") ∧
    (ctx.TestOnReplica = false → ctx.MigrateOnReplica = true →
      GetOldTableName ctx = "_" ++ ctx.OriginalTableName ++ "_ghr") ∧
    (ctx.TestOnReplica = false → ctx.MigrateOnReplica = false →
      GetOldTableName ctx = "_" ++ ctx.OriginalTableName ++ "_del") := by
  refine ⟨?_, ?_, ?_, ?_, ?_⟩ <;> intros <;>
    simp_all [GetGhostTableName, GetOldTableName]

/-- C4 witness: the theorem applied to the spec's `orders` examples. -/
theorem derivedTableNames_templates_witness :
    GetGhostTableName { newMigrationContext with
      OriginalTableName := "orders", Migrate := true,
      MigrateTableName := "orders_v2" } = "orders_v2" ∧
    GetGhostTableName { newMigrationContext with
      OriginalTableName := "orders" } = "_orders_gho" ∧
    GetOldTableName { newMigrationContext with
      OriginalTableName := "orders", TestOnReplica := true } = "_orders_ght" ∧
    GetOldTableName { newMigrationContext with
      OriginalTableName := "orders", MigrateOnReplica := true } =
        "_orders_ghr" ∧
    GetOldTableName { newMigrationContext with
      OriginalTableName := "orders" } = "_orders_del" :=
  ⟨(derivedTableNames_templates _).1 rfl,
   (derivedTableNames_templates _).2.1 rfl,
   (derivedTableNames_templates _).2.2.1 rfl,
   (derivedTableNames_templates _).2.2.2.1 rfl rfl,
   (derivedTableNames_templates _).2.2.2.2 rfl rfl⟩

/-- C10: when `TestOnReplica` and `MigrateOnReplica` are both set,
`GetOldTableName` returns `_<table>_ght` — `TestOnReplica` takes precedence
over `MigrateOnReplica`. -/
theorem getOldTableName_bothReplicaFlags (ctx : MigrationContext)
    (ht : ctx.TestOnReplica = true) (_hm : ctx.MigrateOnReplica = true) :
    GetOldTableName ctx = "_" ++ ctx.OriginalTableName ++ "_ght" := by
  simp [GetOldTableName, ht]

/-- C10 witness: both flags set on table `orders` yields `_orders_ght`. -/
theorem getOldTableName_bothReplicaFlags_witness :
    GetOldTableName { newMigrationContext with
      OriginalTableName := "orders",
      TestOnReplica := true, MigrateOnReplica := true } = "_orders_ght" :=
  getOldTableName_bothReplicaFlags _ rfl rfl

/-- Closed form of `ApplyCredentials`: the sequential override chain amounts
to one record update where each credential independently takes the CLI value
when non-empty, else the config-file value when non-empty, else its previous
value. -/
theorem applyCredentials_eq (ctx : MigrationContext) :
    ApplyCredentials ctx =
      { ctx with InspectorConnectionConfig :=
        { User :=
            if ctx.CliUser ≠ "" then ctx.CliUser
            else if ctx.config.Client.User ≠ "" then ctx.config.Client.User
            else ctx.InspectorConnectionConfig.User,
          Password :=
            if ctx.CliPassword ≠ "" then ctx.CliPassword
            else if ctx.config.Client.Password ≠ "" then
              ctx.config.Client.Password
            else ctx.InspectorConnectionConfig.Password } } := by
  simp only [ApplyCredentials]
  split_ifs <;> rfl

/-- C5: `ApplyCredentials` resolves the inspector user and password
independently, each with fixed precedence: a non-empty CLI value wins,
otherwise a non-empty config-file value, otherwise the previous value stays.
In particular a CLI user combined with only a config-file password yields the
CLI user and the config-file password. -/
theorem applyCredentials_precedence (ctx : MigrationContext) :
    ((ApplyCredentials ctx).InspectorConnectionConfig.User =
      if ctx.CliUser ≠ "" then ctx.CliUser
      else if ctx.config.Client.User ≠ "" then ctx.config.Client.User
      else ctx.InspectorConnectionConfig.User) ∧
    ((ApplyCredentials ctx).InspectorConnectionConfig.Password =
      if ctx.CliPassword ≠ "" then ctx.CliPassword
      else if ctx.config.Client.Password ≠ "" then ctx.config.Client.Password
      else ctx.InspectorConnectionConfig.Password) ∧
    (ctx.CliUser ≠ "" → ctx.CliPassword = "" → ctx.config.Client.Password ≠ "" →
      (ApplyCredentials ctx).InspectorConnectionConfig.User = ctx.CliUser ∧
      (ApplyCredentials ctx).InspectorConnectionConfig.Password =
        ctx.config.Client.Password) := by
  rw [applyCredentials_eq]
  refine ⟨rfl, rfl, ?_⟩
  intro hu hp hcfg
  simp [hu, hp, hcfg]

/-- C5 witness: CLI user `cliuser` plus config-file user `cfguser` and
config-file password `cfgpass` (no CLI password) yields user `cliuser` and
password `cfgpass`. -/
theorem applyCredentials_precedence_witness :
    (ApplyCredentials { newMigrationContext with
        CliUser := "cliuser",
        config := { newMigrationContext.config with
          Client := { User := "cfguser", Password := "cfgpass" } } }
      ).InspectorConnectionConfig.User = "cliuser" ∧
    (ApplyCredentials { newMigrationContext with
        CliUser := "cliuser",
        config := { newMigrationContext.config with
          Client := { User := "cfguser", Password := "cfgpass" } } }
      ).InspectorConnectionConfig.Password = "cfgpass" :=
  (applyCredentials_precedence _).2.2 (by decide) rfl (by decide)

/-- C6: `ApplyCredentials` is idempotent — applying it twice to any context
leaves the inspector connection (indeed the whole context) exactly as one
application does, since the fields it reads to decide each override are never
written by it. -/
theorem applyCredentials_idempotent (ctx : MigrationContext) :
    ApplyCredentials (ApplyCredentials ctx) = ApplyCredentials ctx := by
  rw [applyCredentials_eq ctx, applyCredentials_eq]
  split_ifs <;> simp_all

/-- C7: `ElapsedRowCopyTime` is zero while the start time is unset (the zero
instant, as on a fresh context); after `MarkRowCopyStartTime` and before any
`MarkRowCopyEndTime` it equals `now − start` and grows monotonically with the
clock; after `MarkRowCopyEndTime` it is the fixed value `end − start`,
independent of any further wall-clock time. -/
theorem elapsedRowCopyTime_phases (ctx : MigrationContext) (now : Nat) :
    (ctx.RowCopyStartTime = 0 → ElapsedRowCopyTime now ctx = 0) ∧
    (∀ tstart : Nat, 0 < tstart → ctx.RowCopyEndTime = 0 →
      ElapsedRowCopyTime now (MarkRowCopyStartTime tstart ctx) =
        (now : Int) - (tstart : Int)) ∧
    (∀ now1 now2 : Nat, now1 ≤ now2 → ctx.RowCopyStartTime ≠ 0 →
      ctx.RowCopyEndTime = 0 →
      ElapsedRowCopyTime now1 ctx ≤ ElapsedRowCopyTime now2 ctx) ∧
    (∀ tstart tend : Nat, 0 < tstart → 0 < tend →
      ElapsedRowCopyTime now
          (MarkRowCopyEndTime tend (MarkRowCopyStartTime tstart ctx)) =
        (tend : Int) - (tstart : Int)) := by
  refine ⟨?_, ?_, ?_, ?_⟩
  · intro h
    simp [ElapsedRowCopyTime, h]
  · intro tstart hpos hend
    simp only [ElapsedRowCopyTime, MarkRowCopyStartTime]
    rw [if_neg (by omega), if_pos hend]
  · intro now1 now2 hle hstart hend
    simp only [ElapsedRowCopyTime]
    rw [if_neg hstart, if_neg hstart, if_pos hend, if_pos hend]
    omega
  · intro tstart tend hs he
    simp only [ElapsedRowCopyTime, MarkRowCopyStartTime, MarkRowCopyEndTime]
    rw [if_neg (by omega), if_neg (by omega)]

/-- C7 witness: the theorem applied at concrete instants — a fresh context
reads zero; starting at 10 and reading at 17 gives 7; with end marked at 25
the value is 15 whatever the clock says (here 1000). -/
theorem elapsedRowCopyTime_phases_witness :
    ElapsedRowCopyTime 17 newMigrationContext = 0 ∧
    ElapsedRowCopyTime 17 (MarkRowCopyStartTime 10 newMigrationContext) = 7 ∧
    ElapsedRowCopyTime 5
        (MarkRowCopyStartTime 10 newMigrationContext) ≤
      ElapsedRowCopyTime 17 (MarkRowCopyStartTime 10 newMigrationContext) ∧
    ElapsedRowCopyTime 1000
        (MarkRowCopyEndTime 25 (MarkRowCopyStartTime 10 newMigrationContext)) =
      15 := by
  refine ⟨(elapsedRowCopyTime_phases newMigrationContext 17).1 rfl, ?_, ?_, ?_⟩
  · have h := (elapsedRowCopyTime_phases newMigrationContext 17).2.1 10
      (by norm_num) rfl
    rw [h]; norm_num
  · exact (elapsedRowCopyTime_phases
        (MarkRowCopyStartTime 10 newMigrationContext) 0).2.2.1 5 17
      (by norm_num) (by decide) rfl
  · have h := (elapsedRowCopyTime_phases newMigrationContext 1000).2.2.2 10 25
      (by norm_num) (by norm_num)
    rw [h]; norm_num

/-- C3: `ReadMaxLoad` either parses its argument and replaces the stored
max-load map with the parsed map as one unit, or returns the parse error and
leaves the context (in particular the stored map) exactly as it was. Parsing
`"Threads_running=100,Threads_connected=500"` yields the two-entry map with
those values; parsing `"Threads_running=abc"` fails, retaining the prior
map. -/
theorem readMaxLoad_atomic :
    (∀ (s : String) (ctx : MigrationContext),
      (∃ m, ParseLoadMap s = .ok m ∧
        ReadMaxLoad s ctx = (none, { ctx with maxLoad := m })) ∨
      (∃ e, ParseLoadMap s = .error e ∧ ReadMaxLoad s ctx = (some e, ctx))) ∧
    ParseLoadMap "Threads_running=100,Threads_connected=500" =
      .ok [("Threads_running", (100 : ℚ)), ("Threads_connected", (500 : ℚ))] ∧
    (∀ ctx : MigrationContext,
      ReadMaxLoad "Threads_running=100,Threads_connected=500" ctx =
        (none, { ctx with maxLoad :=
          [("Threads_running", (100 : ℚ)), ("Threads_connected", (500 : ℚ))] })) ∧
    (∀ ctx : MigrationContext,
      (ReadMaxLoad "Threads_running=abc" ctx).1.isSome = true ∧
      (ReadMaxLoad "Threads_running=abc" ctx).2 = ctx) := by
  have hok : ParseLoadMap "Threads_running=100,Threads_connected=500" =
      .ok [("Threads_running", (100 : ℚ)), ("Threads_connected", (500 : ℚ))] := by
    decide
  have hbad : ParseLoadMap "Threads_running=abc" =
      .error "Error parsing load condition: Threads_running=abc" := by
    decide
  refine ⟨?_, hok, ?_, ?_⟩
  · intro s ctx
    cases hp : ParseLoadMap s with
    | ok m => exact Or.inl ⟨m, rfl, by simp [ReadMaxLoad, hp]⟩
    | error e => exact Or.inr ⟨e, rfl, by simp [ReadMaxLoad, hp]⟩
  · intro ctx
    simp [ReadMaxLoad, hok]
  · intro ctx
    simp [ReadMaxLoad, hbad]

/-- C8 counterexample: at `retries = 0` the source function
`SetDefaultNumRetries` does not reject with a checkable error — its Go
signature returns nothing, so its embedding returns only the context, which
disagrees with the spec's rejected-with-`ValidationError` behavior
(`setDefaultNumRetriesSpecModel`); the prior value is retained, but
silently. -/
theorem setDefaultNumRetries_noError_counterexample :
    Except.ok (SetDefaultNumRetries 0 newMigrationContext) ≠
      setDefaultNumRetriesSpecModel 0 newMigrationContext ∧
    SetDefaultNumRetries 0 newMigrationContext = newMigrationContext := by
  constructor
  · simp [SetDefaultNumRetries, setDefaultNumRetriesSpecModel]
  · simp [SetDefaultNumRetries]

/-- C8 (amended): a non-positive value passed to `SetDefaultNumRetries` is
silently ignored — the method returns no error (it returns nothing at all)
and the prior retry value is retained, so a subsequent `MaxRetries` returns
the unchanged prior value; a positive value is stored. -/
theorem setDefaultNumRetries_silentIgnore (v : Int) (ctx : MigrationContext) :
    (v ≤ 0 →
      SetDefaultNumRetries v ctx = ctx ∧
      MaxRetries (SetDefaultNumRetries v ctx) = MaxRetries ctx) ∧
    (0 < v → MaxRetries (SetDefaultNumRetries v ctx) = v) := by
  constructor
  · intro h
    have hno : ¬ (v > 0) := by omega
    simp [SetDefaultNumRetries, hno]
  · intro h
    simp [SetDefaultNumRetries, MaxRetries, h]

/-- C8 witness: the amended theorem applied at `v = 0` (ignored, `MaxRetries`
still the default 60) and `v = 7` (stored) on the default context. -/
theorem setDefaultNumRetries_silentIgnore_witness :
    SetDefaultNumRetries 0 newMigrationContext = newMigrationContext ∧
    MaxRetries (SetDefaultNumRetries 0 newMigrationContext) =
      MaxRetries newMigrationContext ∧
    MaxRetries (SetDefaultNumRetries 7 newMigrationContext) = 7 :=
  ⟨((setDefaultNumRetries_silentIgnore 0 newMigrationContext).1
      (by norm_num)).1,
   ((setDefaultNumRetries_silentIgnore 0 newMigrationContext).1
      (by norm_num)).2,
   (setDefaultNumRetries_silentIgnore 7 newMigrationContext).2 (by norm_num)⟩

/-- A context whose `ConfigFile` is set, so `ReadConfigFile` actually reads. -/
def ctxWithConfigFile : MigrationContext :=
  { newMigrationContext with ConfigFile := "gh-ost.cnf" }

/-- A parsed config whose user is the literal `$\x7bDB_USER\x7d`. -/
def configWithEnvUser : ContextConfig :=
  { newMigrationContext.config with
    Client := { User := "$\x7bDB_USER\x7d", Password := "" } }

/-- A parsed config whose password is the literal `$\x7bDB_PASS\x7d`. -/
def configWithEnvPassword : ContextConfig :=
  { newMigrationContext.config with
    Client := { User := "gh-ost-user", Password := "$\x7bDB_PASS\x7d" } }

/-- An environment where only `DB_PASS` is set (to `secret`); every other
variable — in particular `DB_USER` — is unset, so `os.Getenv` yields `""`. -/
def dbPassEnv : String → String :=
  fun name => if name = "DB_PASS" then "secret" else ""

/-- C9 counterexample: with a config-file user of the literal form
`$\x7bDB_USER\x7d` and an environment where `DB_USER` is unset (so resolution
yields the empty string), `ReadConfigFile` returns `nil` — no error at all —
and silently stores the empty user; the claim says this case returns a
`ConfigReadError`. -/
theorem readConfigFile_emptyEnv_counterexample :
    envVarSubmatch configWithEnvUser.Client.User = some "DB_USER" ∧
    dbPassEnv "DB_USER" = "" ∧
    (ReadConfigFile dbPassEnv (fun _ => .ok configWithEnvUser)
        ctxWithConfigFile).1 = none ∧
    (ReadConfigFile dbPassEnv (fun _ => .ok configWithEnvUser)
        ctxWithConfigFile).2.config.Client.User = "" := by
  refine ⟨by decide, by decide, ?_, ?_⟩ <;> decide

/-- C9 (amended): `ReadConfigFile` is a no-op without a configured file path;
a file read/parse error is propagated to the caller with the context left
unchanged; on a successful parse it returns `nil` and stores the parsed
config with each credential of the form `$\x7bNAME\x7d` replaced by the value
of environment variable `NAME` at the time of the call — including the empty
string when that variable is empty or unset, which is not reported as an
error. -/
theorem readConfigFile_resolution (env : String → String)
    (readFileInto : ContextConfig → Except String ContextConfig)
    (ctx : MigrationContext) :
    (ctx.ConfigFile = "" → ReadConfigFile env readFileInto ctx = (none, ctx)) ∧
    (∀ e, ctx.ConfigFile ≠ "" → readFileInto ctx.config = .error e →
      ReadConfigFile env readFileInto ctx = (some e, ctx)) ∧
    (∀ cfg, ctx.ConfigFile ≠ "" → readFileInto ctx.config = .ok cfg →
      (ReadConfigFile env readFileInto ctx).1 = none ∧
      (ReadConfigFile env readFileInto ctx).2.config.Client.User =
        (match envVarSubmatch cfg.Client.User with
          | some name => env name
          | none => cfg.Client.User) ∧
      (ReadConfigFile env readFileInto ctx).2.config.Client.Password =
        (match envVarSubmatch cfg.Client.Password with
          | some name => env name
          | none => cfg.Client.Password)) := by
  refine ⟨?_, ?_, ?_⟩
  · intro h
    simp [ReadConfigFile, h]
  · intro e hfile herr
    simp [ReadConfigFile, hfile, herr]
  · intro cfg hfile hok
    refine ⟨?_, ?_, ?_⟩ <;> simp only [ReadConfigFile, if_neg hfile, hok]

/-- C9 witness for the amended theorem: with `DB_PASS=secret` in the
environment and a config-file password `$\x7bDB_PASS\x7d`, `ReadConfigFile`
returns `nil` and the stored password is `secret`. -/
theorem readConfigFile_resolution_witness :
    (ReadConfigFile dbPassEnv (fun _ => .ok configWithEnvPassword)
        ctxWithConfigFile).1 = none ∧
    (ReadConfigFile dbPassEnv (fun _ => .ok configWithEnvPassword)
        ctxWithConfigFile).2.config.Client.Password = "secret" := by
  have h := (readConfigFile_resolution dbPassEnv
      (fun _ => .ok configWithEnvPassword) ctxWithConfigFile).2.2
    configWithEnvPassword (by decide) rfl
  refine ⟨h.1, ?_⟩
  rw [h.2.2]
  decide

end GhOst
